import Mathlib

/-!
Verification of the development-server launcher of the AnalFrameWork
repository (`src/anal/cli/commands/runserver.py`), as a shallow embedding.
Dynamic effects of the Python code (module import, `glob.glob`, the current
working directory, availability of the `uvicorn` package) are captured by an
explicit environment record `Env`; the functions of the source file become
pure Lean functions over that environment.
-/

/-- Python string helper: `c in s` for a single-character needle. -/
def pyContainsChar (s : String) (c : Char) : Bool :=
  s.data.any (fun x => x == c)

/-- Split a character list at the first occurrence of `c`:
`some (before, after)` when `c` occurs, `none` otherwise. -/
def splitCharFirst (c : Char) : List Char → Option (List Char × List Char)
  | [] => none
  | x :: rest =>
    if x = c then some ([], rest)
    else
      match splitCharFirst c rest with
      | none => none
      | some (a, b) => some (x :: a, b)

/-- Python `s.split(":", 1)` unpacked into two variables: succeeds exactly
when the string contains a colon (otherwise the unpacking raises, which the
callers catch). -/
def splitColon1 (s : String) : Option (String × String) :=
  match splitCharFirst ':' s.data with
  | none => none
  | some (a, b) => some (String.mk a, String.mk b)

/-- Replace every non-overlapping occurrence of `old` by `new`, left to
right, on character lists (Python `str.replace` for nonempty `old`). The
`fuel` argument only makes the recursion structural; each step consumes at
least one character, so any `fuel` at least the list length is exact. -/
def replaceList (old new : List Char) : Nat → List Char → List Char
  | _, [] => []
  | 0, l => l
  | fuel + 1, c :: rest =>
    if old.isPrefixOf (c :: rest) then
      new ++ replaceList old new fuel (rest.drop (old.length - 1))
    else
      c :: replaceList old new fuel rest

/-- Python `s.replace(old, new)` (for the nonempty `old` patterns the source
uses). -/
def pyReplace (s old new : String) : String :=
  String.mk (replaceList old.data new.data s.data.length s.data)

/-- Python `s.rstrip(chars)`: drop trailing characters belonging to the set
`chars` (note: a character set, not a suffix). -/
def pyRstrip (s : String) (chars : List Char) : String :=
  String.mk ((s.data.reverse.dropWhile (fun c => chars.contains c)).reverse)

/-- Python `s.startswith(pre)`. -/
def pyStartsWith (s pre : String) : Bool :=
  pre.data.isPrefixOf s.data

/-- A Python object as far as the probe cares: only whether `callable(x)`
holds. -/
structure PyAttr where
  callable : Bool
deriving DecidableEq

/-- A successfully imported Python module: its attribute table.
`attrs a = none` models `hasattr(module, a) = False`. -/
structure PyModule where
  attrs : String → Option PyAttr

/-- An entry of `Path.cwd().iterdir()`: its name, whether it is a directory,
and whether `entry / '__init__.py'` exists. -/
structure DirEntry where
  name : String
  isDir : Bool
  hasInitPy : Bool
deriving DecidableEq

/-- The dynamic environment of `runserver.py`: the import machinery
(`importModule m = .error ()` models any exception raised while importing
`m`, including `ModuleNotFoundError`), the filesystem glob, the current
working directory (its base name, its path, its entries), and whether the
`uvicorn` package imported. -/
structure Env where
  importModule : String → Except Unit PyModule
  glob : String → List String
  projectName : String
  uvicornAvailable : Bool
  cwdPath : String
  cwdEntries : List DirEntry

/-- `check_asgi_module_direct(module_path)`: split at the first colon
(failure of the unpacking is caught by the `except`), import the module
(any exception caught), check the attribute exists, return whether it is
callable. -/
def check_asgi_module_direct (env : Env) (module_path : String) : Bool :=
  match splitColon1 module_path with
  | none => false
  | some (module_name, app_name) =>
    match env.importModule module_name with
    | .error _ => false
    | .ok module =>
      match module.attrs app_name with
      | none => false
      | some app => app.callable

/-- The path-to-module-name conversion inside `check_asgi_module`:
`path.replace("/", ".").replace("\\\\", ".").rstrip(".py")` (the second
pattern is the two-character string of two backslashes, and `rstrip`
strips the character set `.`, `p`, `y`). -/
def pathToModName (path : String) : String :=
  pyRstrip (pyReplace (pyReplace path "/" ".") "\\\\" ".") ['.', 'p', 'y']

/-- `check_asgi_module(module_path)`: reject colon-free strings, expand a
wildcard module name through `glob` and test each expansion, otherwise
test the path directly. -/
def check_asgi_module (env : Env) (module_path : String) : Bool :=
  if pyContainsChar module_path ':' then
    match splitColon1 module_path with
    | none => false
    | some (module_name, app_name) =>
      if pyContainsChar module_name '*' then
        let pattern := pyReplace module_name "*" "*/"
        let paths := env.glob pattern
        paths.any (fun path =>
          check_asgi_module_direct env (pathToModName path ++ ":" ++ app_name))
      else
        check_asgi_module_direct env module_path
  else
    false

/-- The candidate list built inside `find_asgi_application`, as a function
of `Path.cwd().name`. -/
def candidates (project_name : String) : List String :=
  ["main:app",
   "asgi:application",
   "app:app",
   "application:app",
   "*/main:app",
   "*/asgi:application",
   "*/app:app",
   project_name ++ ".main:app",
   project_name ++ ".asgi:application",
   project_name ++ "/main:app",
   project_name ++ "/asgi:application"]

/-- The `for candidate in candidates: if check: return candidate` loop. -/
def findFirstCandidate (env : Env) : List String → Option String
  | [] => none
  | c :: cs =>
    if check_asgi_module env c then some c else findFirstCandidate env cs

/-- `find_asgi_application()`: first candidate that checks, else `None`. -/
def find_asgi_application (env : Env) : Option String :=
  findFirstCandidate env (candidates env.projectName)

/-- The optional settings object: `DEBUG`, and the SSL attributes where
`none` models `hasattr` returning `False`. -/
structure Settings where
  DEBUG : Bool
  SSL_KEYFILE : Option String
  SSL_CERTFILE : Option String
deriving DecidableEq

/-- The keyword mapping handed to `uvicorn.run`; the two optional SSL keys
are `none` when absent from the dict. -/
structure UvicornConfig where
  app : String
  host : String
  port : Nat
  reload : Bool
  workers : Nat
  log_level : String
  access_log : Bool
  ssl_keyfile : Option String
  ssl_certfile : Option String
deriving DecidableEq

/-- Observable outcome of `run_development_server`: either `sys.exit(code)`
after printing `messages`, or a call of `uvicorn.run` with `config` after
printing `messages`. -/
inductive RunOutcome where
  | exit (code : Nat) (messages : List String)
  | serve (messages : List String) (config : UvicornConfig)
deriving DecidableEq

/-- The initial `config` dict of `run_development_server` (before the SSL
update): workers forced to 1 under reload, log level from
`settings and settings.DEBUG`. -/
def baseConfig (app_module host : String) (port : Nat) (reload : Bool)
    (workers : Nat) (settings : Option Settings) : UvicornConfig :=
  { app := app_module
    host := host
    port := port
    reload := reload
    workers := if reload then 1 else workers
    log_level :=
      match settings with
      | some s => if s.DEBUG then "debug" else "info"
      | none => "info"
    access_log := true
    ssl_keyfile := none
    ssl_certfile := none }

/-- The SSL block of `run_development_server`: when settings is present,
both SSL attributes exist (`hasattr`), and both values are truthy
(nonempty), add both keys. -/
def applySsl (config : UvicornConfig) : Option Settings → UvicornConfig
  | none => config
  | some s =>
    match s.SSL_KEYFILE, s.SSL_CERTFILE with
    | some k, some c =>
      if k ≠ "" ∧ c ≠ "" then
        { config with ssl_keyfile := some k, ssl_certfile := some c }
      else config
    | _, _ => config

/-- `run_development_server(host, port, reload, workers, settings)`:
exit 1 when uvicorn is missing; exit 1 when no ASGI application is found
(Python `if not app_module` is also taken for an empty string); otherwise
hand the configuration to `uvicorn.run`. -/
def run_development_server (env : Env) (host : String) (port : Nat)
    (reload : Bool) (workers : Nat) (settings : Option Settings) :
    RunOutcome :=
  if env.uvicornAvailable = false then
    .exit 1 ["Error: uvicorn is required to run the server.",
             "Install it with: pip install uvicorn[standard]"]
  else
    match find_asgi_application env with
    | none =>
      .exit 1 ["Error: Could not find ASGI application.",
               "Make sure you have a main.py or asgi.py file with an 'app' or 'application' variable."]
    | some app_module =>
      if app_module = "" then
        .exit 1 ["Error: Could not find ASGI application.",
                 "Make sure you have a main.py or asgi.py file with an 'app' or 'application' variable."]
      else
        .serve
          (["Starting development server at http://" ++ host ++ ":" ++
              toString port,
            "Quit the server with CONTROL-C."] ++
           (if reload then
              ["Auto-reload is enabled. The server will restart when code changes."]
            else []))
          (applySsl (baseConfig app_module host port reload workers settings)
            settings)

/-- `get_reload_dirs()`: the working directory, then every immediate child
that is a directory, not hidden, not `__pycache__`, and contains
`__init__.py`. -/
def get_reload_dirs (env : Env) : List String :=
  env.cwdPath ::
    ((env.cwdEntries.filter (fun item =>
        item.isDir && !(pyStartsWith item.name ".") &&
          !(item.name == "__pycache__") && item.hasInitPy)).map
      (fun item => env.cwdPath ++ "/" ++ item.name))

/-! ### Concrete environments used by witnesses and counterexamples -/

/-- A module exposing a callable `app` attribute. -/
def modWithApp : PyModule :=
  ⟨fun a => if a = "app" then some ⟨true⟩ else none⟩

/-- A module exposing a callable `application` attribute. -/
def modWithApplication : PyModule :=
  ⟨fun a => if a = "application" then some ⟨true⟩ else none⟩

/-- A project in which both `main:app` and `asgi:application` verify. -/
def envBoth : Env :=
  { importModule := fun m =>
      if m = "main" then .ok modWithApp
      else if m = "asgi" then .ok modWithApplication
      else .error ()
    glob := fun _ => []
    projectName := "proj"
    uvicornAvailable := true
    cwdPath := "/home/user/proj"
    cwdEntries := [] }

/-- A project in which no import succeeds and no glob matches. -/
def envNone : Env :=
  { importModule := fun _ => .error ()
    glob := fun _ => []
    projectName := "proj"
    uvicornAvailable := true
    cwdPath := "/home/user/proj"
    cwdEntries := [] }

/-- A project whose only application lives in the nested package
`sub/main` (so only the wildcard candidate verifies): glob expansion of
the pattern built from the module name of the candidate yields
`sub/main`, and the module `sub.main` imports with a callable `app`. -/
def envWild : Env :=
  { importModule := fun m => if m = "sub.main" then .ok modWithApp else .error ()
    glob := fun p => if p = "*//main" then ["sub/main"] else []
    projectName := "proj"
    uvicornAvailable := true
    cwdPath := "/home/user/proj"
    cwdEntries := [] }

/-- A project in which every module imports and exposes a callable
attribute under any name, and every glob matches something. -/
def envPermissive : Env :=
  { importModule := fun _ => .ok ⟨fun _ => some ⟨true⟩⟩
    glob := fun _ => ["sub/main"]
    projectName := "proj"
    uvicornAvailable := true
    cwdPath := "/home/user/proj"
    cwdEntries := [] }

/-- A module whose `app` attribute exists but is a plain, non-callable
value. -/
def modPlainApp : PyModule :=
  ⟨fun a => if a = "app" then some ⟨false⟩ else none⟩

/-- A project whose `main` module has a non-callable `app`. -/
def envPlain : Env :=
  { importModule := fun m => if m = "main" then .ok modPlainApp else .error ()
    glob := fun _ => []
    projectName := "proj"
    uvicornAvailable := true
    cwdPath := "/home/user/proj"
    cwdEntries := [] }

/-- `True` when importing `m` raises in environment `env`. -/
def importFails (env : Env) (m : String) : Bool :=
  match env.importModule m with
  | .error _ => true
  | .ok _ => false

/-! ### Helper lemmas -/

theorem splitCharFirst_any {c : Char} :
    ∀ {l : List Char} {p : List Char × List Char},
      splitCharFirst c l = some p → l.any (fun x => x == c) = true := by
  intro l
  induction l with
  | nil => intro p h; simp [splitCharFirst] at h
  | cons x rest ih =>
    intro p h
    by_cases hx : x = c
    · simp [hx]
    · simp only [splitCharFirst, if_neg hx] at h
      match hr : splitCharFirst c rest with
      | none => rw [hr] at h; exact absurd h (by simp)
      | some q =>
        have := ih hr
        simp [this]

theorem splitColon1_contains {s m a : String}
    (h : splitColon1 s = some (m, a)) : pyContainsChar s ':' = true := by
  unfold splitColon1 at h
  match hr : splitCharFirst ':' s.data with
  | none => rw [hr] at h; exact absurd h (by simp)
  | some q => exact splitCharFirst_any hr

theorem findFirstCandidate_eq_find (env : Env) :
    ∀ l : List String,
      findFirstCandidate env l = l.find? (check_asgi_module env) := by
  intro l
  induction l with
  | nil => rfl
  | cons c cs ih =>
    by_cases h : check_asgi_module env c
    · simp [findFirstCandidate, List.find?_cons, h]
    · simp [findFirstCandidate, List.find?_cons, h, ih]

theorem findFirstCandidate_none (env : Env) :
    ∀ l : List String, (∀ c ∈ l, check_asgi_module env c = false) →
      findFirstCandidate env l = none := by
  intro l
  induction l with
  | nil => intro _; rfl
  | cons c cs ih =>
    intro h
    have hc := h c (by simp)
    simp only [findFirstCandidate, hc, if_neg Bool.false_ne_true,
      Bool.false_eq_true, if_false]
    exact ih (fun d hd => h d (by simp [hd]))

theorem findFirstCandidate_cons_false (env : Env) (c : String)
    (cs : List String) (h : check_asgi_module env c = false) :
    findFirstCandidate env (c :: cs) = findFirstCandidate env cs := by
  simp [findFirstCandidate, h]

/-! ### Claims -/

/-- C10: for every input string that does not contain the `:` separator,
`check_asgi_module` returns `false` — uniformly in the environment, so in
particular without consulting the import machinery — rather than raising. -/
theorem no_colon_returns_false (env : Env) (module_path : String)
    (h : pyContainsChar module_path ':' = false) :
    check_asgi_module env module_path = false := by
  simp [check_asgi_module, h]

/-- C10 witness: `"main"` has no colon and is rejected even in the
all-permissive environment where every import would succeed. -/
theorem no_colon_returns_false_witness :
    pyContainsChar "main" ':' = false ∧
    check_asgi_module envPermissive "main" = false :=
  ⟨rfl, no_colon_returns_false envPermissive "main" rfl⟩

/-- C2: `find_asgi_application` implements a first-match-wins policy over
the fixed candidate order; in particular, when both `main:app` and
`asgi:application` verify, the result is `main:app`. -/
theorem find_first_match_priority (env : Env) :
    find_asgi_application env =
      (candidates env.projectName).find? (check_asgi_module env) ∧
    (check_asgi_module env "main:app" = true →
      check_asgi_module env "asgi:application" = true →
      find_asgi_application env = some "main:app") := by
  constructor
  · exact findFirstCandidate_eq_find env _
  · intro h1 _
    simp [find_asgi_application, candidates, findFirstCandidate, h1]

/-- C2 witness: in `envBoth` both `main:app` and `asgi:application`
verify, and the result is `main:app`. -/
theorem find_first_match_priority_witness :
    check_asgi_module envBoth "main:app" = true ∧
    check_asgi_module envBoth "asgi:application" = true ∧
    find_asgi_application envBoth = some "main:app" :=
  ⟨rfl, rfl, (find_first_match_priority envBoth).2 rfl rfl⟩

/-- C3: when no candidate verifies, `find_asgi_application` returns `None`
and `run_development_server` (with uvicorn available) prints the
explanatory message and exits with status 1; the outcome is not a `serve`,
so `uvicorn.run` is never invoked. -/
theorem no_candidate_exits_nonzero (env : Env) (host : String) (port : Nat)
    (reload : Bool) (workers : Nat) (settings : Option Settings)
    (hu : env.uvicornAvailable = true)
    (hall : ∀ c ∈ candidates env.projectName,
      check_asgi_module env c = false) :
    find_asgi_application env = none ∧
    run_development_server env host port reload workers settings =
      .exit 1 ["Error: Could not find ASGI application.",
        "Make sure you have a main.py or asgi.py file with an 'app' or 'application' variable."] := by
  have hnone : find_asgi_application env = none :=
    findFirstCandidate_none env _ hall
  refine ⟨hnone, ?_⟩
  simp [run_development_server, hu, hnone]

/-- C3 witness: in `envNone` every candidate fails, the locator reports
failure, and the server-start operation exits with status 1 without a
`serve` outcome. -/
theorem no_candidate_exits_nonzero_witness :
    envNone.uvicornAvailable = true ∧
    (∀ c ∈ candidates envNone.projectName,
      check_asgi_module envNone c = false) ∧
    run_development_server envNone "127.0.0.1" 8000 false 1 none =
      .exit 1 ["Error: Could not find ASGI application.",
        "Make sure you have a main.py or asgi.py file with an 'app' or 'application' variable."] :=
  ⟨rfl, by decide,
    (no_candidate_exits_nonzero envNone "127.0.0.1" 8000 false 1 none rfl
      (by decide)).2⟩

/-- C4: any failure while probing a candidate — the colon split raising,
an import error (including a missing module), a missing attribute, or,
for a wildcard candidate, every glob expansion failing — makes the check
functions return `false`; exceptions are consumed inside the functions
and never reach the caller. -/
theorem probe_failure_returns_false (env : Env) (module_path m a : String)
    (hsplit : splitColon1 module_path = some (m, a)) :
    (pyContainsChar m '*' = false →
      (env.importModule m = .error () ∨
        ∃ mod, env.importModule m = .ok mod ∧ mod.attrs a = none) →
      check_asgi_module_direct env module_path = false ∧
      check_asgi_module env module_path = false) ∧
    (pyContainsChar m '*' = true →
      (∀ p ∈ env.glob (pyReplace m "*" "*/"),
        check_asgi_module_direct env (pathToModName p ++ ":" ++ a) = false) →
      check_asgi_module env module_path = false) := by
  have hc := splitColon1_contains hsplit
  constructor
  · intro hnw hfail
    have hdir : check_asgi_module_direct env module_path = false := by
      rcases hfail with he | ⟨mod, hok, hattr⟩
      · simp [check_asgi_module_direct, hsplit, he]
      · simp [check_asgi_module_direct, hsplit, hok, hattr]
    refine ⟨hdir, ?_⟩
    unfold check_asgi_module
    rw [hc, hsplit]
    simp [hnw, hdir]
  · intro hw hall
    unfold check_asgi_module
    rw [hc, hsplit]
    simp only [hw, if_true]
    simp only [List.any_eq_false]
    intro p hp
    simp [hall p hp]

/-- C4 witness: in `envNone` the direct candidate `main:app` fails its
module load and both check functions reject it. -/
theorem probe_failure_returns_false_witness :
    splitColon1 "main:app" = some ("main", "app") ∧
    pyContainsChar "main" '*' = false ∧
    envNone.importModule "main" = .error () ∧
    check_asgi_module_direct envNone "main:app" = false ∧
    check_asgi_module envNone "main:app" = false := by
  refine ⟨rfl, rfl, rfl, ?_⟩
  exact (probe_failure_returns_false envNone "main:app" "main" "app" rfl).1
    rfl (Or.inl rfl)

/-- C5: a candidate whose module imports and whose attribute exists but is
not callable is rejected by `check_asgi_module_direct` (hence by
`check_asgi_module` for a non-wildcard candidate), and the search loop
moves on to the remaining candidates unchanged. -/
theorem not_callable_skipped (env : Env) (module_path m a : String)
    (mod : PyModule) (app : PyAttr)
    (hsplit : splitColon1 module_path = some (m, a))
    (hnw : pyContainsChar m '*' = false)
    (himp : env.importModule m = .ok mod)
    (hattr : mod.attrs a = some app)
    (hnc : app.callable = false) :
    check_asgi_module_direct env module_path = false ∧
    check_asgi_module env module_path = false ∧
    ∀ cs : List String,
      findFirstCandidate env (module_path :: cs) = findFirstCandidate env cs := by
  have hdir : check_asgi_module_direct env module_path = false := by
    simp [check_asgi_module_direct, hsplit, himp, hattr, hnc]
  have hchk : check_asgi_module env module_path = false := by
    unfold check_asgi_module
    rw [splitColon1_contains hsplit, hsplit]
    simp [hnw, hdir]
  exact ⟨hdir, hchk, fun cs => findFirstCandidate_cons_false env _ cs hchk⟩

/-- C5 witness: a module whose `app` attribute is a non-callable value is
skipped and the loop continues with the remaining candidates. -/
theorem not_callable_skipped_witness :
    envPlain.importModule "main" = .ok modPlainApp ∧
    modPlainApp.attrs "app" = some ⟨false⟩ ∧
    check_asgi_module_direct envPlain "main:app" = false ∧
    findFirstCandidate envPlain ("main:app" :: ["asgi:application"]) =
      findFirstCandidate envPlain ["asgi:application"] := by
  have h := not_callable_skipped envPlain "main:app" "main" "app"
    modPlainApp ⟨false⟩ rfl rfl rfl rfl rfl
  exact ⟨rfl, rfl, h.1, h.2.2 ["asgi:application"]⟩

theorem applySsl_workers (config : UvicornConfig)
    (settings : Option Settings) :
    (applySsl config settings).workers = config.workers := by
  cases settings with
  | none => rfl
  | some s =>
    obtain ⟨d, kf, cf⟩ := s
    cases kf <;> cases cf <;> simp only [applySsl]
    split <;> rfl

/-- The module name of a candidate: the part before the first colon. -/
def moduleNameOf (c : String) : String :=
  match splitColon1 c with
  | some p => p.1
  | none => c

theorem pyContainsChar_append (a b : String) (c : Char) :
    pyContainsChar (a ++ b) c =
      (pyContainsChar a c || pyContainsChar b c) := by
  simp [pyContainsChar, String.data_append, List.any_append]

/-- C1 (failing input): in a project whose only application is the nested
package module `sub.main` — so that the glob expansion of the wildcard
candidate succeeds — `find_asgi_application` returns the wildcard pattern
`*/main:app` itself. That string is not directly importable: its module
part `*/main` fails to import, and the code's own direct check rejects
it. This contradicts the spec's Resolved Entry Point contract. -/
theorem find_returns_wildcard_not_importable :
    find_asgi_application envWild = some "*/main:app" ∧
    pyContainsChar "*/main:app" '*' = true ∧
    importFails envWild "*/main" = true ∧
    check_asgi_module_direct envWild "*/main:app" = false := by
  decide

/-- C6 counterexample: `application` is a direct top-level candidate
module, but no candidate probes it one directory level deep — the
wildcard-nested tier contains only `*/main`, `*/asgi` and `*/app`. -/
theorem candidates_wildcard_missing_application :
    "application:app" ∈ candidates "proj" ∧
    moduleNameOf "application:app" = "application" ∧
    ∀ c ∈ candidates "proj", moduleNameOf c ≠ "*/application" := by
  decide

/-- C6 amended: the ordered candidate list is the four direct top-level
modules, then the wildcard-nested tier covering only `main`, `asgi` and
`app` (not `application`), then the four project-name-derived variants;
every wildcard candidate is one of `*/main:app`, `*/asgi:application`,
`*/app:app`. -/
theorem candidates_list_structure (pn : String)
    (h : pyContainsChar pn '*' = false) :
    candidates pn =
      ["main:app", "asgi:application", "app:app", "application:app",
       "*/main:app", "*/asgi:application", "*/app:app",
       pn ++ ".main:app", pn ++ ".asgi:application",
       pn ++ "/main:app", pn ++ "/asgi:application"] ∧
    ∀ c ∈ candidates pn, pyContainsChar c '*' = true →
      c = "*/main:app" ∨ c = "*/asgi:application" ∨ c = "*/app:app" := by
  refine ⟨rfl, ?_⟩
  intro c hc hstar
  simp only [candidates, List.mem_cons, List.not_mem_nil, or_false] at hc
  rcases hc with rfl | rfl | rfl | rfl | rfl | rfl | rfl | rfl | rfl | rfl | rfl
  · exact absurd hstar (by decide)
  · exact absurd hstar (by decide)
  · exact absurd hstar (by decide)
  · exact absurd hstar (by decide)
  · exact Or.inl rfl
  · exact Or.inr (Or.inl rfl)
  · exact Or.inr (Or.inr rfl)
  all_goals
    rw [pyContainsChar_append, h] at hstar
    simp only [Bool.false_or] at hstar
    exact absurd hstar (by decide)

/-- C6 witness: the amended list shape at project name `proj`. -/
theorem candidates_list_structure_witness :
    pyContainsChar "proj" '*' = false ∧
    candidates "proj" =
      ["main:app", "asgi:application", "app:app", "application:app",
       "*/main:app", "*/asgi:application", "*/app:app",
       "proj" ++ ".main:app", "proj" ++ ".asgi:application",
       "proj" ++ "/main:app", "proj" ++ "/asgi:application"] :=
  ⟨rfl, (candidates_list_structure "proj" rfl).1⟩

/-- C7: when the development server is actually started, the worker count
handed to the server runner is 1 whenever reload is enabled (in
particular for any requested count above 1), and is the requested count
when reload is disabled. -/
theorem reload_forces_single_worker (env : Env) (host : String) (port : Nat)
    (reload : Bool) (workers : Nat) (settings : Option Settings)
    (msgs : List String) (config : UvicornConfig)
    (h : run_development_server env host port reload workers settings =
      .serve msgs config) :
    (reload = true → 1 < workers → config.workers = 1) ∧
    (reload = false → config.workers = workers) := by
  unfold run_development_server at h
  split at h
  · exact absurd h (by simp)
  · split at h
    · exact absurd h (by simp)
    · split at h
      · exact absurd h (by simp)
      · injection h with h1 h2
        subst h2
        constructor
        · intro hr _
          rw [applySsl_workers]
          simp [baseConfig, hr]
        · intro hr
          rw [applySsl_workers]
          simp [baseConfig, hr]

/-- The messages printed before serving in the C7 witness scenario. -/
def msgsReload : List String :=
  ["Starting development server at http://127.0.0.1:8000",
   "Quit the server with CONTROL-C.",
   "Auto-reload is enabled. The server will restart when code changes."]

/-- The configuration handed to the server runner in the C7 witness
scenario: reload requested with 4 workers, forced down to 1. -/
def cfgReload : UvicornConfig :=
  { app := "main:app", host := "127.0.0.1", port := 8000, reload := true,
    workers := 1, log_level := "info", access_log := true,
    ssl_keyfile := none, ssl_certfile := none }

/-- C7 witness: reload with 4 requested workers serves with exactly 1. -/
theorem reload_forces_single_worker_witness :
    (1 : Nat) < 4 ∧
    run_development_server envBoth "127.0.0.1" 8000 true 4 none =
      .serve msgsReload cfgReload ∧
    cfgReload.workers = 1 :=
  ⟨by decide, rfl,
    (reload_forces_single_worker envBoth "127.0.0.1" 8000 true 4 none
      msgsReload cfgReload rfl).1 rfl (by decide)⟩

theorem string_append_right_cancel {a b c : String} (h : a ++ b = a ++ c) :
    b = c := by
  have hd := congrArg String.data h
  rw [String.data_append, String.data_append] at hd
  exact String.ext (List.append_cancel_left hd)

theorem child_ne_cwd (cwd n : String) : cwd ++ "/" ++ n ≠ cwd := by
  intro h
  have hl := congrArg String.length h
  rw [String.length_append, String.length_append] at hl
  have h1 : ("/" : String).length = 1 := rfl
  rw [h1] at hl
  omega

theorem reloadFilter_iff (e : DirEntry) :
    (e.isDir && !(pyStartsWith e.name ".") && !(e.name == "__pycache__") &&
      e.hasInitPy) = true ↔
    (e.isDir = true ∧ pyStartsWith e.name "." = false ∧
      e.name ≠ "__pycache__" ∧ e.hasInitPy = true) := by
  simp [Bool.and_eq_true, Bool.not_eq_true', and_assoc]

/-- C8: the reload watch set always contains the working directory, and
contains the path of an immediate child exactly when that child is a
directory, is not hidden, is not `__pycache__`, and contains
`__init__.py`. -/
theorem reload_dirs_membership (env : Env)
    (hnodup : (env.cwdEntries.map DirEntry.name).Nodup) :
    env.cwdPath ∈ get_reload_dirs env ∧
    ∀ e ∈ env.cwdEntries,
      ((env.cwdPath ++ "/" ++ e.name) ∈ get_reload_dirs env ↔
        (e.isDir = true ∧ pyStartsWith e.name "." = false ∧
          e.name ≠ "__pycache__" ∧ e.hasInitPy = true)) := by
  constructor
  · exact List.mem_cons_self _ _
  · intro e he
    constructor
    · intro hmem
      rcases List.mem_cons.mp hmem with heq | hmap
      · exact absurd heq (child_ne_cwd _ _)
      · rcases List.mem_map.mp hmap with ⟨e2, he2f, heq⟩
        have hname : e2.name = e.name := string_append_right_cancel heq
        have he2mem : e2 ∈ env.cwdEntries := List.mem_of_mem_filter he2f
        have hee : e2 = e := List.inj_on_of_nodup_map hnodup he2mem he hname
        subst hee
        exact (reloadFilter_iff e2).mp (List.mem_filter.mp he2f).2
    · intro hp
      refine List.mem_cons_of_mem _ (List.mem_map.mpr ⟨e, ?_, rfl⟩)
      exact List.mem_filter.mpr ⟨he, (reloadFilter_iff e).mpr hp⟩

/-- A working directory holding a package `pkg`, a marker-less directory
`docs`, a hidden directory `.git`, a `__pycache__` directory, and a plain
file. -/
def envDirs : Env :=
  { importModule := fun _ => .error ()
    glob := fun _ => []
    projectName := "proj"
    uvicornAvailable := true
    cwdPath := "/home/user/proj"
    cwdEntries :=
      [⟨"pkg", true, true⟩, ⟨"docs", true, false⟩, ⟨".git", true, true⟩,
       ⟨"__pycache__", true, true⟩, ⟨"setup.py", false, false⟩] }

/-- C8 witness: in `envDirs` the watch set contains the working directory
and the package child `pkg`. -/
theorem reload_dirs_membership_witness :
    (envDirs.cwdEntries.map DirEntry.name).Nodup ∧
    envDirs.cwdPath ∈ get_reload_dirs envDirs ∧
    (envDirs.cwdPath ++ "/" ++ "pkg") ∈ get_reload_dirs envDirs := by
  have h := reload_dirs_membership envDirs (by decide)
  refine ⟨by decide, h.1, ?_⟩
  exact (h.2 ⟨"pkg", true, true⟩ (by decide)).mpr (by decide)

/-- Settings whose SSL attributes are present (hasattr succeeds) but hold
empty, falsy values. -/
def settingsEmptySsl : Settings := ⟨false, some "", some ""⟩

/-- Settings with both SSL attributes present and truthy. -/
def settingsFullSsl : Settings := ⟨false, some "key.pem", some "cert.pem"⟩

/-- C9 counterexample: the SSL attributes are present on the settings
object, yet the configuration handed to the server runner carries no SSL
entries, because the present values are falsy empty strings — presence
alone does not add the entries. -/
theorem ssl_present_but_empty_not_added :
    settingsEmptySsl.SSL_KEYFILE.isSome = true ∧
    settingsEmptySsl.SSL_CERTFILE.isSome = true ∧
    run_development_server envBoth "127.0.0.1" 8000 false 2
        (some settingsEmptySsl) =
      .serve ["Starting development server at http://127.0.0.1:8000",
              "Quit the server with CONTROL-C."]
        { app := "main:app", host := "127.0.0.1", port := 8000,
          reload := false, workers := 2, log_level := "info",
          access_log := true, ssl_keyfile := none, ssl_certfile := none } := by
  decide

/-- Spec-side value (amended) of the `ssl_keyfile` entry: present exactly
when both SSL attributes exist on the settings object and both values are
truthy (nonempty), and in particular never when settings is absent. -/
def sslKeyfileSpec : Option Settings → Option String
  | some s =>
    match s.SSL_KEYFILE, s.SSL_CERTFILE with
    | some k, some c => if k ≠ "" ∧ c ≠ "" then some k else none
    | _, _ => none
  | none => none

/-- Spec-side value (amended) of the `ssl_certfile` entry, under the same
condition as `sslKeyfileSpec`. -/
def sslCertfileSpec : Option Settings → Option String
  | some s =>
    match s.SSL_KEYFILE, s.SSL_CERTFILE with
    | some k, some c => if k ≠ "" ∧ c ≠ "" then some c else none
    | _, _ => none
  | none => none

/-- C9 amended: whenever the server is actually started, the SSL entries
of the configuration mapping are exactly those demanded by the amended
spec — present iff both attributes exist on the settings object and both
are truthy, never when settings is absent. -/
theorem ssl_entries_iff_truthy (env : Env) (host : String) (port : Nat)
    (reload : Bool) (workers : Nat) (settings : Option Settings)
    (msgs : List String) (config : UvicornConfig)
    (h : run_development_server env host port reload workers settings =
      .serve msgs config) :
    config.ssl_keyfile = sslKeyfileSpec settings ∧
    config.ssl_certfile = sslCertfileSpec settings := by
  unfold run_development_server at h
  split at h
  · exact absurd h (by simp)
  · split at h
    · exact absurd h (by simp)
    · split at h
      · exact absurd h (by simp)
      · injection h with h1 h2
        subst h2
        cases settings with
        | none => exact ⟨rfl, rfl⟩
        | some s =>
          obtain ⟨d, kf, cf⟩ := s
          cases kf <;> cases cf <;>
            simp only [applySsl, sslKeyfileSpec, sslCertfileSpec] <;>
            try exact ⟨rfl, rfl⟩
          split <;> simp [baseConfig]

/-- Messages printed in the C9 witness scenario (no reload). -/
def msgsNoReload : List String :=
  ["Starting development server at http://127.0.0.1:8000",
   "Quit the server with CONTROL-C."]

/-- Configuration of the C9 witness scenario: truthy SSL settings end up
in the mapping. -/
def cfgSsl : UvicornConfig :=
  { app := "main:app", host := "127.0.0.1", port := 8000, reload := false,
    workers := 2, log_level := "info", access_log := true,
    ssl_keyfile := some "key.pem", ssl_certfile := some "cert.pem" }

/-- C9 witness: with both SSL attributes present and truthy, the served
configuration carries exactly those SSL entries. -/
theorem ssl_entries_iff_truthy_witness :
    run_development_server envBoth "127.0.0.1" 8000 false 2
        (some settingsFullSsl) = .serve msgsNoReload cfgSsl ∧
    cfgSsl.ssl_keyfile = sslKeyfileSpec (some settingsFullSsl) ∧
    cfgSsl.ssl_certfile = sslCertfileSpec (some settingsFullSsl) ∧
    sslKeyfileSpec (some settingsFullSsl) = some "key.pem" :=
  ⟨rfl,
   (ssl_entries_iff_truthy envBoth "127.0.0.1" 8000 false 2
     (some settingsFullSsl) msgsNoReload cfgSsl rfl).1,
   (ssl_entries_iff_truthy envBoth "127.0.0.1" 8000 false 2
     (some settingsFullSsl) msgsNoReload cfgSsl rfl).2,
   rfl⟩
